import Mathlib

/-!
Shallow embedding of the client-side motion-preview pipeline of the
hand-video-to-3D frontend (the React application in the source tree):
the bone topology table, the bone solver, the frame player, the upload
session and run pipeline, the handle-lifecycle effect, and the render
supervisor.  Real-valued coordinates are modelled over the rationals;
JavaScript object URLs are modelled as natural-number handles drawn from
a fresh counter; the three remote calls are modelled by an explicit
network oracle; the React effect with dependency list [glbUrl, videoUrl]
is modelled by explicit bookkeeping of the dependency values captured by
the currently registered cleanup.
-/

namespace HandApp

/-- A 3-component vector in model space, over the rationals. -/
structure Vec3 where
  x : ℚ
  y : ℚ
  z : ℚ
deriving Repr, DecidableEq

def Vec3.zero : Vec3 := ⟨0, 0, 0⟩

/-- Componentwise subtraction, as in THREE.Vector3.subVectors. -/
def Vec3.sub (a b : Vec3) : Vec3 := ⟨a.x - b.x, a.y - b.y, a.z - b.z⟩

/-- Squared Euclidean norm.  The source stores dir.length(), the square
root of this quantity; the solver is embedded with the squared form so
that it stays executable, and the length claims are stated through
Real.sqrt of this field. -/
def Vec3.sqNorm (v : Vec3) : ℚ := v.x ^ 2 + v.y ^ 2 + v.z ^ 2

/-- Midpoint, as in addVectors(start, end).multiplyScalar(0.5). -/
def Vec3.mid (a b : Vec3) : Vec3 :=
  ⟨(a.x + b.x) / 2, (a.y + b.y) / 2, (a.z + b.z) / 2⟩

/-- The sign flip of the vertical axis applied to every incoming joint
position: [x, y, z] becomes [x, -y, z]. -/
def flipY (v : Vec3) : Vec3 := ⟨v.x, -v.y, v.z⟩

/-- One timestep of joint positions (expected length 21). -/
abbrev Frame := List Vec3

/-- The Bone Topology Table: the 20 fixed (parent, child) joint-index
pairs of the hand skeleton, in source order. -/
def BONE_PAIRS : List (Nat × Nat) :=
  [(0, 1), (1, 2), (2, 3), (3, 4),
   (0, 5), (5, 6), (6, 7), (7, 8),
   (0, 9), (9, 10), (10, 11), (11, 12),
   (0, 13), (13, 14), (14, 15), (15, 16),
   (0, 17), (17, 18), (18, 19), (19, 20)]

/-- The degeneracy threshold 1e-4 of the bone solver. -/
def EPS : ℚ := 1 / 10000

/-- The sign-flipped positions derived from a frame:
frames[frameIdx].map(([x, y, z]) => [x, -y, z]). -/
def positionsOf (frame : Frame) : List Vec3 := frame.map flipY

/-- A renderable bone descriptor: midpoint and squared length.  The
source additionally stores an orientation quaternion; the claims under
check concern only count, order, midpoint and length, so orientation is
not embedded. -/
structure BoneDesc where
  mid : Vec3
  sqLen : ℚ
deriving Repr, DecidableEq

/-- Whether the pair ab is degenerate at the given positions: the
squared distance of its endpoints is below EPS squared.  This is the
squared form of the source test length < 1e-4. -/
def degeneratePair (pos : List Vec3) (ab : Nat × Nat) : Bool :=
  decide (((pos.getD ab.2 Vec3.zero).sub (pos.getD ab.1 Vec3.zero)).sqNorm < EPS ^ 2)

/-- The bone descriptor the solver pushes for a non-degenerate pair. -/
def mkBone (pos : List Vec3) (ab : Nat × Nat) : BoneDesc :=
  let s := pos.getD ab.1 Vec3.zero
  let e := pos.getD ab.2 Vec3.zero
  { mid := Vec3.mid s e, sqLen := (e.sub s).sqNorm }

/-- The Bone Solver: walk the Bone Topology Table in order, skip
degenerate pairs, and emit a bone descriptor for each remaining pair. -/
def solveBones (pos : List Vec3) : List BoneDesc :=
  BONE_PAIRS.filterMap fun ab =>
    if degeneratePair pos ab then none else some (mkBone pos ab)

/-- A joint marker: its (sign-flipped) position and whether it is the
visually distinguished root joint (index 0). -/
structure Marker where
  position : Vec3
  isRoot : Bool
deriving Repr, DecidableEq

/-- The joint markers: one per position, with index 0 distinguished. -/
def jointMarkers (pos : List Vec3) : List Marker :=
  pos.mapIdx fun i p => { position := p, isRoot := decide (i = 0) }

/-! ## Frame Player -/

/-- The JavaScript idiom v || d on numbers: d when v is zero (falsy),
else v.  Used for fps || 30. -/
def jsOrNum (v d : ℚ) : ℚ := if v = 0 then d else v

/-- The index the player resets to whenever the frames reference
changes: setFrameIdx(0). -/
def resetIndex : Nat := 0

/-- One timer tick on a sequence of length n:
setFrameIdx(i => (i + 1) % frames.length). -/
def tick (n i : Nat) : Nat := (i + 1) % n

/-- The active index after k ticks from a fresh sequence. -/
def idxAfter (n k : Nat) : Nat := (tick n)^[k] resetIndex

/-- The timer period in milliseconds: ms = 1000 / (fps || 30). -/
def tickPeriodMs (fps : ℚ) : ℚ := 1000 / jsOrNum fps 30

/-- The scheduling decision of the player effect: no timer when frames
is absent or empty, else a single interval timer with the computed
period. -/
def scheduleTimer (frames : Option (List Frame)) (fps : ℚ) : Option ℚ :=
  match frames with
  | none => none
  | some fs => if fs.length = 0 then none else some (tickPeriodMs fps)

/-- current = frames[frameIdx] || frames[0]: the indexed frame when the
index is in bounds, else frame 0. -/
def currentFrame (fs : List Frame) (idx : Nat) : Frame :=
  match fs[idx]? with
  | some f => f
  | none => fs.getD 0 []

/-- The memoized positions: empty when frames is absent or empty, else
the sign-flipped coordinates of the current frame. -/
def positionsMemo (frames : Option (List Frame)) (idx : Nat) : List Vec3 :=
  match frames with
  | none => []
  | some fs => if fs.length = 0 then [] else positionsOf (currentFrame fs idx)

/-- The geometry a skeleton render produces: markers plus bones. -/
structure SkeletonGeom where
  markers : List Marker
  bones : List BoneDesc
deriving Repr, DecidableEq

/-- The HandSkeleton render: none (the component returns null) when the
position list is empty, else the markers and solved bones. -/
def renderSkeleton (frames : Option (List Frame)) (idx : Nat) : Option SkeletonGeom :=
  let pos := positionsMemo frames idx
  if pos.length = 0 then none
  else some { markers := jointMarkers pos, bones := solveBones pos }

/-! ## Session state and run pipeline -/

/-- The pipeline status enum. -/
inductive Status where
  | idle
  | processing
  | ready
  | error
deriving Repr, DecidableEq

/-- The Run record returned by the submit endpoint. -/
structure Run where
  run_id : String
  frames : Nat
  detected_frames : Nat
  fps : ℚ
  glb_url : String
  keypoints_url : String
deriving Repr, DecidableEq

/-- The decoded keypoints payload: frames plus playback rate. -/
structure Keypoints where
  frames : List Frame
  fps : ℚ
deriving Repr, DecidableEq

/-- Outcome of one remote call: a payload, or a failure carrying the
optional response-body detail field and the transport message. -/
inductive StepResult (α : Type) where
  | ok : α → StepResult α
  | fail : Option String → String → StepResult α
deriving Repr, DecidableEq

/-- The network oracle: the responses the three remote endpoints would
give during one submission. -/
structure Network where
  postProcess : StepResult Run
  getKeypoints : String → StepResult Keypoints
  getGlb : String → StepResult Nat

/-- The network calls a submission issues, in order. -/
inductive NetCall where
  | postProcess
  | getKeypoints : String → NetCall
  | getGlb : String → NetCall
deriving Repr, DecidableEq

/-- The JavaScript idiom a || b on an optional string against a string:
b when a is absent or empty (falsy), else a.  Used both for
err?.response?.data?.detail || err.message and for
error?.message || "GLB load/render failed". -/
def jsOrStr (a : Option String) (b : String) : String :=
  match a with
  | none => b
  | some s => if s = "" then b else s

/-- The App component state, together with bookkeeping for the handle
lifecycle: nextHandle counts URL.createObjectURL results, revoked logs
URL.revokeObjectURL calls in order, effectDeps holds the [glbUrl,
videoUrl] values captured by the currently registered effect cleanup,
and netCalls logs the remote calls issued. -/
structure AppState where
  file : Option Unit
  status : Status
  errorMsg : Option String
  run : Option Run
  keypoints : Option Keypoints
  glbUrl : Option Nat
  videoUrl : Option Nat
  nextHandle : Nat
  revoked : List Nat
  effectDeps : Option (Option Nat × Option Nat)
  netCalls : List NetCall
deriving Repr, DecidableEq

/-- The state of a freshly constructed App, before the first effect
pass. -/
def initState : AppState :=
  { file := none, status := .idle, errorMsg := none, run := none,
    keypoints := none, glbUrl := none, videoUrl := none,
    nextHandle := 0, revoked := [], effectDeps := none, netCalls := [] }

/-- handleSubmit: guard on a missing file, set processing, then run the
three sequential remote steps, reducing any failure to status error
with the detail-or-message text, and full success to status ready with
run, keypoints and a freshly materialized glb handle. -/
def handleSubmit (net : Network) (s : AppState) : AppState :=
  match s.file with
  | none => { s with errorMsg := some "Please select a video file first." }
  | some _ =>
    let s1 := { s with status := .processing, errorMsg := none,
                       netCalls := s.netCalls ++ [NetCall.postProcess] }
    match net.postProcess with
    | .fail d m => { s1 with status := .error, errorMsg := some (jsOrStr d m) }
    | .ok rn =>
      let s2 := { s1 with run := some rn,
                          netCalls := s1.netCalls ++ [NetCall.getKeypoints rn.keypoints_url] }
      match net.getKeypoints rn.keypoints_url with
      | .fail d m => { s2 with status := .error, errorMsg := some (jsOrStr d m) }
      | .ok kp =>
        let s3 := { s2 with keypoints := some kp,
                            netCalls := s2.netCalls ++ [NetCall.getGlb rn.glb_url] }
        match net.getGlb rn.glb_url with
        | .fail d m => { s3 with status := .error, errorMsg := some (jsOrStr d m) }
        | .ok _ =>
          { s3 with glbUrl := some s3.nextHandle,
                    nextHandle := s3.nextHandle + 1,
                    status := .ready }

/-- handleUpload: record the selection, clear the error, revoke the
previous source-preview handle, and create a fresh preview handle when
a file was actually selected. -/
def handleUpload (selected : Bool) (s : AppState) : AppState :=
  let s1 := { s with file := if selected then some () else none,
                     errorMsg := none }
  let s2 := match s1.videoUrl with
            | some v => { s1 with revoked := s1.revoked ++ [v] }
            | none => s1
  if selected then
    { s2 with videoUrl := some s2.nextHandle, nextHandle := s2.nextHandle + 1 }
  else s2

/-- One pass of the cleanup effect with dependency list
[glbUrl, videoUrl]: on first render register the deps; on a later
render whose deps differ from the registered ones, run the previous
cleanup (revoking the captured glbUrl then the captured videoUrl, when
present) and re-register. -/
def applyEffect (s : AppState) : AppState :=
  match s.effectDeps with
  | none => { s with effectDeps := some (s.glbUrl, s.videoUrl) }
  | some (g, v) =>
    if (g, v) = (s.glbUrl, s.videoUrl) then s
    else
      { s with revoked := s.revoked ++ g.toList ++ v.toList,
               effectDeps := some (s.glbUrl, s.videoUrl) }

/-- Unmounting the App runs the registered cleanup one final time. -/
def unmountApp (s : AppState) : AppState :=
  match s.effectDeps with
  | none => s
  | some (g, v) =>
    { s with revoked := s.revoked ++ g.toList ++ v.toList, effectDeps := none }

/-- The user-visible events of one Session lifecycle. -/
inductive Event where
  | upload : Bool → Event
  | submit : Network → Event
  | unmount : Event

/-- One event step followed by the effect pass React performs after the
resulting re-render. -/
def step (s : AppState) : Event → AppState
  | .upload sel => applyEffect (handleUpload sel s)
  | .submit net => applyEffect (handleSubmit net s)
  | .unmount => unmountApp s

/-- A whole lifecycle: mount (initial render plus first effect pass),
then the events in order. -/
def runTrace (evs : List Event) : AppState :=
  evs.foldl step (applyEffect initState)

/-! ## Render Supervisor -/

/-- What the viewer pane shows: the neutral placeholder, the primary
scene (whether the rich model branch is mounted, and the skeleton
geometry when frame data exists), or the boundary fallback (the visible
error note plus the skeleton-only canvas). -/
inductive View where
  | placeholder : String → View
  | primaryScene : Bool → Option SkeletonGeom → View
  | fallbackScene : String → Option SkeletonGeom → View
deriving Repr, DecidableEq

/-- getDerivedStateFromError: the message shown by the boundary for a
thrown error whose own message field is the given optional string. -/
def boundaryMessage (errMessage : Option String) : String :=
  jsOrStr errMessage "GLB load/render failed"

/-- The HandViewer render.  renderError is none when the rich-model
branch loads and renders without throwing, and some e when it throws an
error whose message field is e; in the latter case the boundary catches
it and substitutes the fallback scene with its visible error note. -/
def handViewer (glbUrl : Option Nat) (frames : Option (List Frame)) (idx : Nat)
    (renderError : Option (Option String)) : View :=
  let hasFrames : Bool := match frames with
                          | some fs => fs.length != 0
                          | none => false
  if glbUrl = none ∧ hasFrames = false then
    View.placeholder "Upload a video to preview the reconstructed hand motion."
  else
    match renderError with
    | some e =>
      View.fallbackScene ("GLB failed to load: " ++ boundaryMessage e)
        (renderSkeleton frames idx)
    | none =>
      View.primaryScene glbUrl.isSome
        (if hasFrames = true then renderSkeleton frames idx else none)

/-- The frames handed to the viewer: keypoints?.frames. -/
def framesOf (s : AppState) : Option (List Frame) :=
  s.keypoints.map Keypoints.frames

/-- One render of the viewer pane from the session state.  Rendering
returns the unchanged session together with the view: the boundary
keeps any caught error in its own local state and has no access to the
pipeline status. -/
def renderApp (s : AppState) (idx : Nat) (renderError : Option (Option String)) :
    AppState × View :=
  (s, handViewer s.glbUrl (framesOf s) idx renderError)

/-! ## Helper lemmas -/

/-- A filterMap that skips exactly where a predicate holds is the map
over the filtered complement, and its length plus the skipped count is
the original length. -/
theorem filterMap_skip_spec {α β : Type} (l : List α) (p : α → Bool) (f : α → β) :
    (l.filterMap fun a => if p a then none else some (f a)) =
      (l.filter fun a => !(p a)).map f ∧
    (l.filterMap fun a => if p a then none else some (f a)).length
      + (l.filter p).length = l.length := by
  induction l with
  | nil => simp
  | cons a t ih =>
    rcases ih with ⟨ih1, ih2⟩
    by_cases h : p a = true
    · constructor
      · simp [List.filterMap_cons, List.filter_cons, h, ih1]
      · simp only [List.filterMap_cons, List.filter_cons, h, if_pos, List.length_cons]
        omega
    · constructor
      · simp [List.filterMap_cons, List.filter_cons, h, ih1]
      · simp only [List.filterMap_cons, List.filter_cons, h]
        simp only [Bool.false_eq_true, if_false, List.length_cons]
        omega

theorem solveBones_eq_filter_map (pos : List Vec3) :
    solveBones pos =
      (BONE_PAIRS.filter fun ab => !(degeneratePair pos ab)).map (mkBone pos) :=
  (filterMap_skip_spec BONE_PAIRS (degeneratePair pos) (mkBone pos)).1

theorem solveBones_length (pos : List Vec3) :
    (solveBones pos).length
      = BONE_PAIRS.length - (BONE_PAIRS.filter (degeneratePair pos)).length := by
  have h := (filterMap_skip_spec BONE_PAIRS (degeneratePair pos) (mkBone pos)).2
  unfold solveBones
  omega

theorem sqNorm_cast (s e : Vec3) :
    (((e.sub s).sqNorm : ℚ) : ℝ)
      = ((e.x - s.x : ℚ) : ℝ) ^ 2 + ((e.y - s.y : ℚ) : ℝ) ^ 2
        + ((e.z - s.z : ℚ) : ℝ) ^ 2 := by
  simp only [Vec3.sub, Vec3.sqNorm]
  push_cast
  ring

/-- C7: for every Frame of 21 joint positions, the Bone Solver emits
one bone descriptor per Bone Topology Table pair whose endpoint
distance is at least epsilon, in table order: the output count equals
20 minus the number of degenerate pairs, every table index is in
bounds, each emitted bone has length (the square root of its stored
squared length) equals the Euclidean distance between its two
sign-flipped endpoints, its midpoint is their average, the
degeneracy test is exactly distance < epsilon, and all 21 joint
markers are produced regardless of degenerate pairs. -/
theorem boneSolver_spec (frame : Frame) (h21 : frame.length = 21) :
    (solveBones (positionsOf frame)).length
        = 20 - (BONE_PAIRS.filter (degeneratePair (positionsOf frame))).length
    ∧ solveBones (positionsOf frame)
        = (BONE_PAIRS.filter fun ab => !(degeneratePair (positionsOf frame) ab)).map
            (mkBone (positionsOf frame))
    ∧ (∀ ab ∈ BONE_PAIRS,
        ab.1 < (positionsOf frame).length ∧ ab.2 < (positionsOf frame).length)
    ∧ (∀ ab, ab ∈ BONE_PAIRS →
        ∀ s e, s = (positionsOf frame).getD ab.1 Vec3.zero →
          e = (positionsOf frame).getD ab.2 Vec3.zero →
          (mkBone (positionsOf frame) ab).mid = Vec3.mid s e
          ∧ Real.sqrt (((mkBone (positionsOf frame) ab).sqLen : ℚ) : ℝ)
              = Real.sqrt (((e.x - s.x : ℚ) : ℝ) ^ 2 + ((e.y - s.y : ℚ) : ℝ) ^ 2
                  + ((e.z - s.z : ℚ) : ℝ) ^ 2)
          ∧ (degeneratePair (positionsOf frame) ab = true
              ↔ Real.sqrt (((e.x - s.x : ℚ) : ℝ) ^ 2 + ((e.y - s.y : ℚ) : ℝ) ^ 2
                  + ((e.z - s.z : ℚ) : ℝ) ^ 2) < ((EPS : ℚ) : ℝ)))
    ∧ (jointMarkers (positionsOf frame)).length = 21 := by
  have hlen : (positionsOf frame).length = 21 := by
    simp [positionsOf, h21]
  refine ⟨?_, solveBones_eq_filter_map _, ?_, ?_, ?_⟩
  · simpa [BONE_PAIRS] using solveBones_length (positionsOf frame)
  · intro ab hab
    have hb : ∀ ab ∈ BONE_PAIRS, ab.1 < 21 ∧ ab.2 < 21 := by decide
    rw [hlen]
    exact hb ab hab
  · intro ab _hab s e hs he
    have hEPS : (0 : ℝ) < ((EPS : ℚ) : ℝ) := by
      rw [EPS]; norm_num
    refine ⟨?_, ?_, ?_⟩
    · subst hs he; rfl
    · have : ((mkBone (positionsOf frame) ab).sqLen : ℚ) = (e.sub s).sqNorm := by
        subst hs he; rfl
      rw [this, sqNorm_cast]
    · have hd : (mkBone (positionsOf frame) ab).sqLen = (e.sub s).sqNorm := by
        subst hs he; rfl
      have hdeg : degeneratePair (positionsOf frame) ab = true
          ↔ (e.sub s).sqNorm < EPS ^ 2 := by
        subst hs he
        simp only [degeneratePair, decide_eq_true_iff]
      rw [hdeg, ← sqNorm_cast, Real.sqrt_lt' hEPS]
      constructor
      · intro h; exact_mod_cast h
      · intro h; exact_mod_cast h
  · simp [jointMarkers, List.length_mapIdx, hlen]

/-- A concrete 21-joint frame with all joints at distinct positions on
the x axis. -/
def frame0 : Frame := (List.range 21).map fun i => ⟨(i : ℚ), 0, 0⟩

theorem boneSolver_spec_witness :
    frame0.length = 21
    ∧ (solveBones (positionsOf frame0)).length
        = 20 - (BONE_PAIRS.filter (degeneratePair (positionsOf frame0))).length :=
  ⟨by decide, (boneSolver_spec frame0 (by decide)).1⟩

theorem idxAfter_succ (n k : Nat) :
    idxAfter n (k + 1) = (idxAfter n k + 1) % n := by
  simp only [idxAfter, Function.iterate_succ_apply', tick]

theorem idxAfter_lt (n : Nat) (hn : n ≠ 0) : ∀ k, idxAfter n k < n := by
  intro k
  induction k with
  | zero => exact Nat.pos_of_ne_zero hn
  | succ k _ =>
    rw [idxAfter_succ]
    exact Nat.mod_lt _ (Nat.pos_of_ne_zero hn)

/-- C6: for every Frame sequence of length N > 0 and rate R > 0, the
active index of the Frame Player starts at 0 whenever the sequence
changes,
advances by exactly 1 modulo N on each tick, stays in 0..N-1, and the
scheduled timer has the fixed period 1000/R milliseconds. -/
theorem framePlayer_spec (frames : List Frame) (R : ℚ)
    (hN : frames.length ≠ 0) (hR : R ≠ 0) :
    idxAfter frames.length 0 = resetIndex
    ∧ resetIndex = 0
    ∧ (∀ k, idxAfter frames.length k < frames.length)
    ∧ (∀ k, idxAfter frames.length (k + 1)
        = (idxAfter frames.length k + 1) % frames.length)
    ∧ scheduleTimer (some frames) R = some (tickPeriodMs R)
    ∧ tickPeriodMs R = 1000 / R := by
  refine ⟨rfl, rfl, idxAfter_lt frames.length hN, idxAfter_succ frames.length, ?_, ?_⟩
  · simp [scheduleTimer, hN]
  · simp [tickPeriodMs, jsOrNum, hR]

theorem framePlayer_spec_witness :
    idxAfter 3 0 = resetIndex ∧ idxAfter 3 7 < 3 :=
  have h := framePlayer_spec (List.replicate 3 []) 24 (by decide) (by simp)
  ⟨h.1, h.2.2.1 7⟩

/-- C8: for every empty (or absent) Frame sequence, the Frame Player
schedules no timer, the memoized position list is empty, and the
skeleton component renders nothing. -/
theorem emptyFrames_spec (frames : Option (List Frame)) (fps : ℚ) (idx : Nat)
    (h : frames = none ∨ frames = some []) :
    scheduleTimer frames fps = none
    ∧ positionsMemo frames idx = []
    ∧ renderSkeleton frames idx = none := by
  rcases h with h | h <;> subst h <;>
    simp [scheduleTimer, positionsMemo, renderSkeleton]

theorem emptyFrames_spec_witness :
    scheduleTimer none 30 = none
    ∧ positionsMemo none 0 = []
    ∧ renderSkeleton none 0 = none :=
  emptyFrames_spec none 30 0 (Or.inl rfl)

/-- C10: for every non-empty Frame sequence and every index value,
including one out of range for the current sequence, the current-frame
selection is total: it yields the indexed frame when the index is in
bounds and falls back to frame 0 otherwise, and the memoized positions
are always the sign-flipped coordinates of that selected frame. -/
theorem currentFrame_total (fs : List Frame) (idx : Nat) (h : fs ≠ []) :
    (idx < fs.length → currentFrame fs idx = fs.getD idx [])
    ∧ (fs.length ≤ idx → currentFrame fs idx = fs.getD 0 [])
    ∧ positionsMemo (some fs) idx = positionsOf (currentFrame fs idx) := by
  refine ⟨?_, ?_, ?_⟩
  · intro hlt
    simp [currentFrame, List.getElem?_eq_getElem hlt, List.getD,
      List.getElem?_eq_getElem]
  · intro hge
    simp [currentFrame, List.getElem?_eq_none hge]
  · have hne : fs.length ≠ 0 := by
      simpa [List.length_eq_zero] using h
    simp [positionsMemo, hne]

theorem currentFrame_total_witness :
    ([[Vec3.zero]] : List Frame) ≠ []
    ∧ ((3 < ([[Vec3.zero]] : List Frame).length →
          currentFrame [[Vec3.zero]] 3 = ([[Vec3.zero]] : List Frame).getD 3 [])
       ∧ (([[Vec3.zero]] : List Frame).length ≤ 3 →
          currentFrame [[Vec3.zero]] 3 = ([[Vec3.zero]] : List Frame).getD 0 [])
       ∧ positionsMemo (some [[Vec3.zero]]) 3
          = positionsOf (currentFrame [[Vec3.zero]] 3)) :=
  ⟨by simp, currentFrame_total [[Vec3.zero]] 3 (by simp)⟩

/-! ## Concrete fixtures -/

/-- The Run record of scenario A. -/
def runA : Run :=
  { run_id := "r1", frames := 10, detected_frames := 9, fps := 24,
    glb_url := "/g", keypoints_url := "/k" }

/-- The keypoints payload of scenario A: 10 frames of 21 triples. -/
def kpA : Keypoints :=
  { frames := List.replicate 10 (List.replicate 21 Vec3.zero), fps := 24 }

/-- A network oracle on which all three steps succeed (scenario A). -/
def netA : Network :=
  { postProcess := .ok runA,
    getKeypoints := fun u => if u = "/k" then .ok kpA else .fail none "404",
    getGlb := fun u => if u = "/g" then .ok 7 else .fail none "404" }

/-- A network oracle whose submit step fails with a present but empty
detail field. -/
def netB0 : Network :=
  { postProcess := .fail (some "") "Request failed with status code 500",
    getKeypoints := fun _ => .fail none "unreachable",
    getGlb := fun _ => .fail none "unreachable" }

/-- The scenario B oracle: submit fails with detail "corrupt video". -/
def netB : Network :=
  { postProcess := .fail (some "corrupt video") "Request failed with status code 500",
    getKeypoints := fun _ => .fail none "unreachable",
    getGlb := fun _ => .fail none "unreachable" }

/-- An oracle on which step 1 succeeds and step 2 fails. -/
def net1 : Network :=
  { postProcess := .ok runA,
    getKeypoints := fun _ => .fail none "Network Error",
    getGlb := fun _ => .fail none "unreachable" }

/-- A session that has a selected source file. -/
def sFile : AppState := { initState with file := some () }

/-- A trivial all-failing oracle. -/
def netDown : Network :=
  { postProcess := .fail none "down",
    getKeypoints := fun _ => .fail none "down",
    getGlb := fun _ => .fail none "down" }

/-! ## Pipeline claims -/

/-- C4: for every call to submit with no source asset selected, no
network call is issued and the Session is unchanged except for the
error message, which is set to the empty-input text; in particular the
status keeps its pre-call value. -/
theorem submitNoFile_spec (net : Network) (s : AppState) (h : s.file = none) :
    (handleSubmit net s).status = s.status
    ∧ (handleSubmit net s).netCalls = s.netCalls
    ∧ (handleSubmit net s).run = s.run
    ∧ (handleSubmit net s).keypoints = s.keypoints
    ∧ (handleSubmit net s).glbUrl = s.glbUrl
    ∧ (handleSubmit net s).videoUrl = s.videoUrl
    ∧ (handleSubmit net s).nextHandle = s.nextHandle
    ∧ (handleSubmit net s).revoked = s.revoked
    ∧ (handleSubmit net s).file = s.file
    ∧ (handleSubmit net s).errorMsg = some "Please select a video file first." := by
  simp [handleSubmit, h]

theorem submitNoFile_spec_witness :
    initState.file = none
    ∧ (handleSubmit netDown initState).status = initState.status
    ∧ (handleSubmit netDown initState).netCalls = initState.netCalls :=
  have h := submitNoFile_spec netDown initState rfl
  ⟨rfl, h.1, h.2.1⟩

/-- C2: for every submission in which all three pipeline steps succeed,
the final status is ready and the Session holds the Run record, the
decoded Frame sequence, and a freshly materialized binary-asset
handle; the three remote calls are issued in order. -/
theorem submitSuccess_spec (net : Network) (s : AppState) (rn : Run)
    (kp : Keypoints) (b : Nat)
    (hf : s.file = some ())
    (h1 : net.postProcess = .ok rn)
    (h2 : net.getKeypoints rn.keypoints_url = .ok kp)
    (h3 : net.getGlb rn.glb_url = .ok b) :
    (handleSubmit net s).status = .ready
    ∧ (handleSubmit net s).run = some rn
    ∧ (handleSubmit net s).keypoints = some kp
    ∧ (handleSubmit net s).glbUrl = some s.nextHandle
    ∧ (handleSubmit net s).nextHandle = s.nextHandle + 1
    ∧ (handleSubmit net s).netCalls
        = s.netCalls ++ [NetCall.postProcess, NetCall.getKeypoints rn.keypoints_url,
                         NetCall.getGlb rn.glb_url] := by
  simp [handleSubmit, hf, h1, h2, h3]

theorem submitSuccess_spec_witness :
    (handleSubmit netA sFile).status = .ready
    ∧ (handleSubmit netA sFile).run = some runA
    ∧ (handleSubmit netA sFile).keypoints = some kpA :=
  have h := submitSuccess_spec netA sFile runA kpA 7 rfl rfl rfl rfl
  ⟨h.1, h.2.1, h.2.2.1⟩

/-- C3 counterexample: the submit endpoint fails with a response body
whose detail field is present but empty; the Session error message is
the transport message, not the (present) detail field. -/
theorem submitErrorDetail_counterexample :
    netB0.postProcess = .fail (some "") "Request failed with status code 500"
    ∧ (handleSubmit netB0 sFile).status = .error
    ∧ (handleSubmit netB0 sFile).errorMsg = some "Request failed with status code 500"
    ∧ (handleSubmit netB0 sFile).errorMsg ≠ some "" := by
  refine ⟨rfl, rfl, rfl, by decide⟩

/-- C3 (amended): for every submission whose step 1 gets a non-success
response, the status becomes error, the error message equals the body
detail field when present and non-empty — a present-but-empty detail
falls back to the transport message, as does an absent one — and steps
2 and 3 are not attempted (only the submit call is issued, and run,
keypoints and glb handle are untouched). -/
theorem submitError_spec (net : Network) (s : AppState) (d : Option String) (m : String)
    (hf : s.file = some ())
    (h1 : net.postProcess = .fail d m) :
    (handleSubmit net s).status = .error
    ∧ (handleSubmit net s).errorMsg = some (jsOrStr d m)
    ∧ (∀ t, d = some t → t ≠ "" → (handleSubmit net s).errorMsg = some t)
    ∧ ((d = none ∨ d = some "") → (handleSubmit net s).errorMsg = some m)
    ∧ (handleSubmit net s).netCalls = s.netCalls ++ [NetCall.postProcess]
    ∧ (handleSubmit net s).run = s.run
    ∧ (handleSubmit net s).keypoints = s.keypoints
    ∧ (handleSubmit net s).glbUrl = s.glbUrl
    ∧ (handleSubmit net s).nextHandle = s.nextHandle := by
  refine ⟨?_, ?_, ?_, ?_, ?_, ?_, ?_, ?_, ?_⟩ <;>
    simp [handleSubmit, hf, h1]
  · intro t ht hne
    subst ht
    simp [jsOrStr, hne]
  · rintro (hd | hd) <;> subst hd <;> simp [jsOrStr]

theorem submitError_spec_witness :
    (handleSubmit netB sFile).status = .error
    ∧ (handleSubmit netB sFile).errorMsg = some "corrupt video"
    ∧ (handleSubmit netB sFile).netCalls = [NetCall.postProcess] :=
  have h := submitError_spec netB sFile (some "corrupt video")
    "Request failed with status code 500" rfl rfl
  ⟨h.1, h.2.2.1 "corrupt video" rfl (by decide), h.2.2.2.2.1⟩

/-- C1 counterexample: step 1 succeeds and step 2 fails, yet at the end
of the failed submission the Session still holds the Run record
produced by that submission — the pipeline is not all-or-nothing. -/
theorem allOrNothing_counterexample :
    (handleSubmit net1 sFile).status = .error
    ∧ (handleSubmit net1 sFile).run = some runA
    ∧ (handleSubmit net1 sFile).run ≠ none := by
  refine ⟨rfl, rfl, ?_⟩
  rw [show (handleSubmit net1 sFile).run = some runA from rfl]
  simp

/-- C1 (amended): for every submission in which step 1 succeeds but the
submission ends in status error (step 2 or 3 failed), the Session
acquires no binary-asset handle from that submission (glb handle and
handle counter unchanged), but it does keep the Run record of step 1,
and it keeps the decoded Frame sequence exactly when step 2
succeeded: step results are exposed as each step completes rather than
all-or-nothing. -/
theorem failedSubmit_spec (net : Network) (s : AppState) (rn : Run)
    (hf : s.file = some ())
    (h1 : net.postProcess = .ok rn)
    (herr : (handleSubmit net s).status = .error) :
    (handleSubmit net s).run = some rn
    ∧ (handleSubmit net s).glbUrl = s.glbUrl
    ∧ (handleSubmit net s).nextHandle = s.nextHandle
    ∧ (handleSubmit net s).keypoints
        = (match net.getKeypoints rn.keypoints_url with
           | .ok kp => some kp
           | .fail _ _ => s.keypoints) := by
  cases h2 : net.getKeypoints rn.keypoints_url with
  | fail d m => simp [handleSubmit, hf, h1, h2]
  | ok kp =>
    cases h3 : net.getGlb rn.glb_url with
    | fail d m => simp [handleSubmit, hf, h1, h2, h3]
    | ok b =>
      exfalso
      rw [show (handleSubmit net s).status = Status.ready from by
        simp [handleSubmit, hf, h1, h2, h3]] at herr
      exact Status.noConfusion herr

theorem failedSubmit_spec_witness :
    (handleSubmit net1 sFile).run = some runA
    ∧ (handleSubmit net1 sFile).glbUrl = sFile.glbUrl
    ∧ (handleSubmit net1 sFile).nextHandle = sFile.nextHandle :=
  have h := failedSubmit_spec net1 sFile runA rfl rfl rfl
  ⟨h.1, h.2.1, h.2.2.1⟩

/-! ## Handle lifecycle -/

/-- A lifecycle trace: upload a first file, run the pipeline to full
success, then upload a replacement file. -/
def tr5 : List Event := [.upload true, .submit netA, .upload true]

/-- A shorter trace: upload a file, then run the pipeline to full
success. -/
def tr5short : List Event := [.upload true, .submit netA]

/-- C5: the handle-release discipline is violated by the code.  On the
short trace the first source-preview handle (handle 0) is revoked by
the effect cleanup triggered by the glb handle assignment even though
it is still the current preview; on the full trace handle 0 ends up
revoked three times (once manually in handleUpload, twice by effect
cleanups) and the glb handle (handle 1) is revoked while the Session
still holds it. -/
theorem handleLifecycle_bug :
    (runTrace tr5short).revoked = [0]
    ∧ (runTrace tr5short).videoUrl = some 0
    ∧ (runTrace tr5).revoked = [0, 0, 1, 0]
    ∧ (runTrace tr5).revoked.count 0 = 3
    ∧ (runTrace tr5).glbUrl = some 1
    ∧ 1 ∈ (runTrace tr5).revoked := by
  refine ⟨by decide, by decide, by decide, by decide, by decide, by decide⟩

/-! ## Render Supervisor claims -/

/-- C9: for every Session state holding a binary-asset handle whose
rich-model load or render throws, the Render Supervisor does not
propagate the failure: the rendered view is the fallback scene carrying
a visible error note and the skeleton reconstruction (present exactly
when usable frame data exists, absent when there is none), and the
Session — in particular its pipeline status — is left unchanged by the
render. -/
theorem renderSupervisor_spec (s : AppState) (idx : Nat) (e : Option String) (h : Nat)
    (hg : s.glbUrl = some h) :
    (renderApp s idx (some e)).1 = s
    ∧ (renderApp s idx (some e)).1.status = s.status
    ∧ (renderApp s idx (some e)).2
        = View.fallbackScene ("GLB failed to load: " ++ boundaryMessage e)
            (renderSkeleton (framesOf s) idx)
    ∧ (∀ fs, framesOf s = some fs → fs.length ≠ 0 →
        (currentFrame fs idx).length ≠ 0 →
        (renderSkeleton (framesOf s) idx).isSome = true)
    ∧ (framesOf s = none → renderSkeleton (framesOf s) idx = none) := by
  refine ⟨rfl, rfl, ?_, ?_, ?_⟩
  · simp [renderApp, handViewer, hg]
  · intro fs hfs hne hcur
    rw [hfs]
    simp [renderSkeleton, positionsMemo, positionsOf, hne, hcur]
  · intro hfs
    rw [hfs]
    simp [renderSkeleton, positionsMemo]

/-- A ready session: glb handle 0 and the scenario A keypoints. -/
def sReady : AppState :=
  { initState with status := .ready, glbUrl := some 0, keypoints := some kpA }

theorem renderSupervisor_spec_witness :
    (renderApp sReady 0 (some (some "boom"))).1 = sReady
    ∧ (renderApp sReady 0 (some (some "boom"))).1.status = sReady.status
    ∧ (renderApp sReady 0 (some (some "boom"))).2
        = View.fallbackScene ("GLB failed to load: " ++ boundaryMessage (some "boom"))
            (renderSkeleton (framesOf sReady) 0) :=
  have h := renderSupervisor_spec sReady 0 (some "boom") 0 rfl
  ⟨h.1, h.2.1, h.2.2.1⟩

end HandApp
